import Mathlib

/-!
Verification of the python-pixabay client (`src/pixabay.py`), a thin HTTP
client for the Pixabay image/video search API.  The Python module defines an
abstract base class `IPixabay` whose constructor stores the API key and the
constant root URL, and two concrete classes `Image` and `Video` whose
`search` methods build a query payload from defaulted keyword arguments,
issue a single GET request, and either return the JSON-parsed body (status
200) or raise `ValueError(resp.text)` (any other status).

The embedding models Python's dynamically typed scalar values with `PyVal`,
keyword arguments (supplied or omitted) with `Option PyVal` fields, the HTTP
transport with an oracle function `Request → Response`, and the delegated
JSON parser with an arbitrary function `String → α`.  A `search` call is a
pure function returning the list of issued requests, the final object state,
and the classified result.
-/

/-- A Python scalar value as it can appear in the query payload: the client
passes strings, integers and (if a caller chooses to supply one) native
booleans through to the `requests` library unchanged. -/
inductive PyVal where
  | str (s : String)
  | int (n : Int)
  | bool (b : Bool)
deriving DecidableEq

/-- An HTTP response as seen through the `requests` library: a numeric
status code and the raw body text (`resp.text`).  `resp.json()` is modelled
by applying the delegated parser to `text`. -/
structure Response where
  status_code : Nat
  text : String
deriving DecidableEq

/-- An outgoing GET request: target URL and query-string payload, the
payload being the association list built by `search` (Python dict in
insertion order). -/
structure Request where
  url : String
  params : List (String × PyVal)
deriving DecidableEq

/-- The single error kind raised by the client: `raise ValueError(resp.text)`
on any non-200 status.  The specification names this error kind
`RemoteRequestError`; it carries the raw, unparsed response body text. -/
inductive SearchError where
  | valueError (text : String)
deriving DecidableEq

/-- The object state of an `IPixabay` instance: the two attributes set by
`IPixabay.__init__` (`self.api_key`, `self.root_url`). -/
structure Pixabay where
  api_key : String
  root_url : String
deriving DecidableEq

/-- `IPixabay.__init__`: stores the given API key verbatim and the constant
root URL.  No validation is performed. -/
def IPixabay.init (api_key : String) : Pixabay :=
  ⟨api_key, "https://pixabay.com/api/"⟩

/-- Constructing an `Image` client runs the inherited `IPixabay.__init__`. -/
def Image.init (api_key : String) : Pixabay :=
  IPixabay.init api_key

/-- Constructing a `Video` client runs the inherited `IPixabay.__init__`. -/
def Video.init (api_key : String) : Pixabay :=
  IPixabay.init api_key

/-- The keyword arguments of `Image.search`: `none` models an omitted
argument (which takes the Python default), `some v` an explicitly supplied
value `v`.  Field order follows the Python signature. -/
structure ImageSearchArgs where
  q : Option PyVal
  lang : Option PyVal
  id : Option PyVal
  image_type : Option PyVal
  orientation : Option PyVal
  category : Option PyVal
  min_width : Option PyVal
  min_height : Option PyVal
  colors : Option PyVal
  editors_choice : Option PyVal
  safesearch : Option PyVal
  order : Option PyVal
  page : Option PyVal
  per_page : Option PyVal
  callback : Option PyVal
  pretty : Option PyVal
deriving DecidableEq

/-- The keyword arguments of `Video.search` (no `orientation`, no `colors`,
`video_type` in place of `image_type`). -/
structure VideoSearchArgs where
  q : Option PyVal
  lang : Option PyVal
  id : Option PyVal
  video_type : Option PyVal
  category : Option PyVal
  min_width : Option PyVal
  min_height : Option PyVal
  editors_choice : Option PyVal
  safesearch : Option PyVal
  order : Option PyVal
  page : Option PyVal
  per_page : Option PyVal
  callback : Option PyVal
  pretty : Option PyVal
deriving DecidableEq

/-- A call to `Image.search` with every keyword argument omitted. -/
def ImageSearchArgs.empty : ImageSearchArgs :=
  ⟨none, none, none, none, none, none, none, none,
   none, none, none, none, none, none, none, none⟩

/-- A call to `Video.search` with every keyword argument omitted. -/
def VideoSearchArgs.empty : VideoSearchArgs :=
  ⟨none, none, none, none, none, none, none,
   none, none, none, none, none, none, none⟩

/-- The `payload` dict built by `Image.search`: each entry holds the
supplied argument, or the Python default when the argument was omitted. -/
def Image.payload (self : Pixabay) (a : ImageSearchArgs) :
    List (String × PyVal) :=
  [("key", PyVal.str self.api_key),
   ("q", a.q.getD (PyVal.str "yellow flower")),
   ("lang", a.lang.getD (PyVal.str "en")),
   ("id", a.id.getD (PyVal.str "")),
   ("image_type", a.image_type.getD (PyVal.str "all")),
   ("orientation", a.orientation.getD (PyVal.str "all")),
   ("category", a.category.getD (PyVal.str "")),
   ("min_width", a.min_width.getD (PyVal.int 0)),
   ("min_height", a.min_height.getD (PyVal.int 0)),
   ("colors", a.colors.getD (PyVal.str "")),
   ("editors_choice", a.editors_choice.getD (PyVal.str "false")),
   ("safesearch", a.safesearch.getD (PyVal.str "false")),
   ("order", a.order.getD (PyVal.str "popular")),
   ("page", a.page.getD (PyVal.int 1)),
   ("per_page", a.per_page.getD (PyVal.int 20)),
   ("callback", a.callback.getD (PyVal.str "")),
   ("pretty", a.pretty.getD (PyVal.str "false"))]

/-- The `payload` dict built by `Video.search`. -/
def Video.payload (self : Pixabay) (a : VideoSearchArgs) :
    List (String × PyVal) :=
  [("key", PyVal.str self.api_key),
   ("q", a.q.getD (PyVal.str "yellow flower")),
   ("lang", a.lang.getD (PyVal.str "en")),
   ("id", a.id.getD (PyVal.str "")),
   ("video_type", a.video_type.getD (PyVal.str "all")),
   ("category", a.category.getD (PyVal.str "")),
   ("min_width", a.min_width.getD (PyVal.int 0)),
   ("min_height", a.min_height.getD (PyVal.int 0)),
   ("editors_choice", a.editors_choice.getD (PyVal.str "false")),
   ("safesearch", a.safesearch.getD (PyVal.str "false")),
   ("order", a.order.getD (PyVal.str "popular")),
   ("page", a.page.getD (PyVal.int 1)),
   ("per_page", a.per_page.getD (PyVal.int 20)),
   ("callback", a.callback.getD (PyVal.str "")),
   ("pretty", a.pretty.getD (PyVal.str "false"))]

/-- The GET request issued by `Image.search`:
`get(self.root_url, params=payload)`. -/
def Image.request (self : Pixabay) (a : ImageSearchArgs) : Request :=
  ⟨self.root_url, Image.payload self a⟩

/-- The GET request issued by `Video.search`:
`get(self.root_url + "videos/", params=payload)`. -/
def Video.request (self : Pixabay) (a : VideoSearchArgs) : Request :=
  ⟨self.root_url ++ "videos/", Video.payload self a⟩

/-- The observable outcome of one `search` call: the requests issued to the
transport (in order), the object state after the call, and the returned
value or raised error. -/
structure SearchOutcome (α : Type) where
  requests : List Request
  finalSelf : Pixabay
  result : Except SearchError α

/-- `Image.search`: build the payload, issue one GET through the transport
oracle `http`, then classify the response — status 200 yields
`resp.json()` (the delegated parser applied to the body), anything else
raises `ValueError(resp.text)`.  `self` is never reassigned. -/
def Image.search {α : Type} (parseJson : String → α) (http : Request → Response)
    (self : Pixabay) (a : ImageSearchArgs) : SearchOutcome α :=
  let req : Request := Image.request self a
  let resp : Response := http req
  if resp.status_code = 200 then
    ⟨[req], self, Except.ok (parseJson resp.text)⟩
  else
    ⟨[req], self, Except.error (SearchError.valueError resp.text)⟩

/-- `Video.search`: identical classification logic, with the `videos/` path
segment appended to the target URL. -/
def Video.search {α : Type} (parseJson : String → α) (http : Request → Response)
    (self : Pixabay) (a : VideoSearchArgs) : SearchOutcome α :=
  let req : Request := Video.request self a
  let resp : Response := http req
  if resp.status_code = 200 then
    ⟨[req], self, Except.ok (parseJson resp.text)⟩
  else
    ⟨[req], self, Except.error (SearchError.valueError resp.text)⟩

/-- Claim C2: calling image search or video search with no arguments builds
an outgoing payload whose fields equal exactly the documented default table,
plus the API key under `"key"`. -/
theorem C2_default_payload (self : Pixabay) :
    Image.payload self ImageSearchArgs.empty =
      [("key", PyVal.str self.api_key),
       ("q", PyVal.str "yellow flower"),
       ("lang", PyVal.str "en"),
       ("id", PyVal.str ""),
       ("image_type", PyVal.str "all"),
       ("orientation", PyVal.str "all"),
       ("category", PyVal.str ""),
       ("min_width", PyVal.int 0),
       ("min_height", PyVal.int 0),
       ("colors", PyVal.str ""),
       ("editors_choice", PyVal.str "false"),
       ("safesearch", PyVal.str "false"),
       ("order", PyVal.str "popular"),
       ("page", PyVal.int 1),
       ("per_page", PyVal.int 20),
       ("callback", PyVal.str ""),
       ("pretty", PyVal.str "false")] ∧
    Video.payload self VideoSearchArgs.empty =
      [("key", PyVal.str self.api_key),
       ("q", PyVal.str "yellow flower"),
       ("lang", PyVal.str "en"),
       ("id", PyVal.str ""),
       ("video_type", PyVal.str "all"),
       ("category", PyVal.str ""),
       ("min_width", PyVal.int 0),
       ("min_height", PyVal.int 0),
       ("editors_choice", PyVal.str "false"),
       ("safesearch", PyVal.str "false"),
       ("order", PyVal.str "popular"),
       ("page", PyVal.int 1),
       ("per_page", PyVal.int 20),
       ("callback", PyVal.str ""),
       ("pretty", PyVal.str "false")] := by
  exact ⟨rfl, rfl⟩

/-- Claim C4: for every API key passed at construction and every options
value, the outgoing payload of both image search and video search contains
an entry under `"key"` whose value is that API key. -/
theorem C4_key_always_present (k : String) (a : ImageSearchArgs)
    (b : VideoSearchArgs) :
    (Image.payload (Image.init k) a).lookup "key" = some (PyVal.str k) ∧
    (Video.payload (Video.init k) b).lookup "key" = some (PyVal.str k) := by
  exact ⟨rfl, rfl⟩

/-- Claim C1: for every client configuration and options value, a status-200
response makes `search` return the response body parsed as JSON, and any
other status makes it fail with the single error kind
(`ValueError`, named `RemoteRequestError` by the spec) carrying the raw,
unparsed response body text verbatim; identically for image and video
search. -/
theorem C1_response_classification {α : Type} (parseJson : String → α)
    (http : Request → Response) (self : Pixabay) (a : ImageSearchArgs)
    (b : VideoSearchArgs) :
    (Image.search parseJson http self a).result =
      (if (http (Image.request self a)).status_code = 200
       then Except.ok (parseJson (http (Image.request self a)).text)
       else Except.error
         (SearchError.valueError (http (Image.request self a)).text)) ∧
    (Video.search parseJson http self b).result =
      (if (http (Video.request self b)).status_code = 200
       then Except.ok (parseJson (http (Video.request self b)).text)
       else Except.error
         (SearchError.valueError (http (Video.request self b)).text)) := by
  constructor <;>
    · simp only [Image.search, Video.search]
      split <;> rfl

/-- Claim C3: every explicitly supplied field appears in the payload with
exactly the supplied value (`Option.getD` returns the supplied value when
present), every omitted field appears with its documented default, and no
documented field is left unresolved — each lookup resolves. -/
theorem C3_override_and_defaults (self : Pixabay) (a : ImageSearchArgs)
    (b : VideoSearchArgs) :
    (Image.payload self a).lookup "q"
      = some (a.q.getD (PyVal.str "yellow flower")) ∧
    (Image.payload self a).lookup "lang" = some (a.lang.getD (PyVal.str "en")) ∧
    (Image.payload self a).lookup "id" = some (a.id.getD (PyVal.str "")) ∧
    (Image.payload self a).lookup "image_type"
      = some (a.image_type.getD (PyVal.str "all")) ∧
    (Image.payload self a).lookup "orientation"
      = some (a.orientation.getD (PyVal.str "all")) ∧
    (Image.payload self a).lookup "category"
      = some (a.category.getD (PyVal.str "")) ∧
    (Image.payload self a).lookup "min_width"
      = some (a.min_width.getD (PyVal.int 0)) ∧
    (Image.payload self a).lookup "min_height"
      = some (a.min_height.getD (PyVal.int 0)) ∧
    (Image.payload self a).lookup "colors"
      = some (a.colors.getD (PyVal.str "")) ∧
    (Image.payload self a).lookup "editors_choice"
      = some (a.editors_choice.getD (PyVal.str "false")) ∧
    (Image.payload self a).lookup "safesearch"
      = some (a.safesearch.getD (PyVal.str "false")) ∧
    (Image.payload self a).lookup "order"
      = some (a.order.getD (PyVal.str "popular")) ∧
    (Image.payload self a).lookup "page" = some (a.page.getD (PyVal.int 1)) ∧
    (Image.payload self a).lookup "per_page"
      = some (a.per_page.getD (PyVal.int 20)) ∧
    (Image.payload self a).lookup "callback"
      = some (a.callback.getD (PyVal.str "")) ∧
    (Image.payload self a).lookup "pretty"
      = some (a.pretty.getD (PyVal.str "false")) ∧
    (Video.payload self b).lookup "q"
      = some (b.q.getD (PyVal.str "yellow flower")) ∧
    (Video.payload self b).lookup "lang" = some (b.lang.getD (PyVal.str "en")) ∧
    (Video.payload self b).lookup "id" = some (b.id.getD (PyVal.str "")) ∧
    (Video.payload self b).lookup "video_type"
      = some (b.video_type.getD (PyVal.str "all")) ∧
    (Video.payload self b).lookup "category"
      = some (b.category.getD (PyVal.str "")) ∧
    (Video.payload self b).lookup "min_width"
      = some (b.min_width.getD (PyVal.int 0)) ∧
    (Video.payload self b).lookup "min_height"
      = some (b.min_height.getD (PyVal.int 0)) ∧
    (Video.payload self b).lookup "editors_choice"
      = some (b.editors_choice.getD (PyVal.str "false")) ∧
    (Video.payload self b).lookup "safesearch"
      = some (b.safesearch.getD (PyVal.str "false")) ∧
    (Video.payload self b).lookup "order"
      = some (b.order.getD (PyVal.str "popular")) ∧
    (Video.payload self b).lookup "page" = some (b.page.getD (PyVal.int 1)) ∧
    (Video.payload self b).lookup "per_page"
      = some (b.per_page.getD (PyVal.int 20)) ∧
    (Video.payload self b).lookup "callback"
      = some (b.callback.getD (PyVal.str "")) ∧
    (Video.payload self b).lookup "pretty"
      = some (b.pretty.getD (PyVal.str "false")) := by
  exact ⟨rfl, rfl, rfl, rfl, rfl, rfl, rfl, rfl, rfl, rfl, rfl, rfl, rfl, rfl,
         rfl, rfl, rfl, rfl, rfl, rfl, rfl, rfl, rfl, rfl, rfl, rfl, rfl, rfl,
         rfl, rfl⟩

/-- Claim C5: every image search call issues its GET to exactly the base
URL, and every video search call to the base URL with the fixed
`"videos/"` segment appended; the target URL is the same for every options
value. -/
theorem C5_target_urls {α : Type} (parseJson : String → α)
    (http : Request → Response) (self : Pixabay) (a : ImageSearchArgs)
    (b : VideoSearchArgs) :
    (Image.search parseJson http self a).requests.map Request.url
      = [self.root_url] ∧
    (Video.search parseJson http self b).requests.map Request.url
      = [self.root_url ++ "videos/"] := by
  constructor <;>
    · simp only [Image.search, Video.search]
      split <;> rfl

/-- Arguments for `Image.search` that supply the three boolean-style fields
as native Python booleans (`editors_choice=True`, `safesearch=False`,
`pretty=True`), as a caller is free to do in dynamically typed Python. -/
def nativeBoolArgs : ImageSearchArgs :=
  ⟨none, none, none, none, none, none, none, none, none,
   some (PyVal.bool true), some (PyVal.bool false), none, none, none,
   none, some (PyVal.bool true)⟩

/-- Claim C6 as stated is false: the client performs no conversion, so when
the caller supplies `editors_choice` as a native boolean, the payload
carries the native boolean, not the string "true" or "false". -/
theorem C6_counterexample :
    (Image.payload (Image.init "key") nativeBoolArgs).lookup "editors_choice"
      = some (PyVal.bool true) ∧
    PyVal.bool true ≠ PyVal.str "true" ∧
    PyVal.bool true ≠ PyVal.str "false" := by
  refine ⟨rfl, ?_, ?_⟩ <;> decide

/-- The field value is omitted or supplied as one of the documented strings
"true" / "false". -/
def SuppliedAsBoolStr (o : Option PyVal) : Prop :=
  o = none ∨ o = some (PyVal.str "true") ∨ o = some (PyVal.str "false")

/-- The payload transmits the literal string "true" or "false" under the
parameter name `k`. -/
def TransmitsBoolStr (p : List (String × PyVal)) (k : String) : Prop :=
  p.lookup k = some (PyVal.str "true") ∨ p.lookup k = some (PyVal.str "false")

/-- A payload entry that resolves to `o.getD (PyVal.str "false")` is the
string "true" or "false" whenever `o` is omitted or a documented string. -/
theorem transmitsBoolStr_of_supplied (p : List (String × PyVal)) (k : String)
    (o : Option PyVal) (hl : p.lookup k = some (o.getD (PyVal.str "false")))
    (h : SuppliedAsBoolStr o) : TransmitsBoolStr p k := by
  rcases h with h | h | h <;> subst h
  · exact Or.inr hl
  · exact Or.inl hl
  · exact Or.inr hl

/-- Claim C6, amended: the client performs no boolean conversion, so the
boolean-style fields are transmitted as the literal strings "true"/"false"
exactly when the caller omits them (taking the string defaults) or supplies
them as those documented strings; any other supplied value — including a
native boolean — is forwarded unchanged. -/
theorem C6_amended_bool_fields (self : Pixabay) (a : ImageSearchArgs)
    (b : VideoSearchArgs)
    (h1 : SuppliedAsBoolStr a.editors_choice)
    (h2 : SuppliedAsBoolStr a.safesearch)
    (h3 : SuppliedAsBoolStr a.pretty)
    (h4 : SuppliedAsBoolStr b.editors_choice)
    (h5 : SuppliedAsBoolStr b.safesearch)
    (h6 : SuppliedAsBoolStr b.pretty) :
    TransmitsBoolStr (Image.payload self a) "editors_choice" ∧
    TransmitsBoolStr (Image.payload self a) "safesearch" ∧
    TransmitsBoolStr (Image.payload self a) "pretty" ∧
    TransmitsBoolStr (Video.payload self b) "editors_choice" ∧
    TransmitsBoolStr (Video.payload self b) "safesearch" ∧
    TransmitsBoolStr (Video.payload self b) "pretty" :=
  ⟨transmitsBoolStr_of_supplied _ _ _ rfl h1,
   transmitsBoolStr_of_supplied _ _ _ rfl h2,
   transmitsBoolStr_of_supplied _ _ _ rfl h3,
   transmitsBoolStr_of_supplied _ _ _ rfl h4,
   transmitsBoolStr_of_supplied _ _ _ rfl h5,
   transmitsBoolStr_of_supplied _ _ _ rfl h6⟩

/-- Witness for the amended C6 at a concrete input: all three boolean-style
fields omitted on both resource types. -/
theorem C6_amended_bool_fields_witness :
    TransmitsBoolStr (Image.payload (Image.init "k") ImageSearchArgs.empty)
      "editors_choice" ∧
    TransmitsBoolStr (Image.payload (Image.init "k") ImageSearchArgs.empty)
      "safesearch" ∧
    TransmitsBoolStr (Image.payload (Image.init "k") ImageSearchArgs.empty)
      "pretty" ∧
    TransmitsBoolStr (Video.payload (Video.init "k") VideoSearchArgs.empty)
      "editors_choice" ∧
    TransmitsBoolStr (Video.payload (Video.init "k") VideoSearchArgs.empty)
      "safesearch" ∧
    TransmitsBoolStr (Video.payload (Video.init "k") VideoSearchArgs.empty)
      "pretty" :=
  C6_amended_bool_fields (Image.init "k") ImageSearchArgs.empty
    VideoSearchArgs.empty (Or.inl rfl) (Or.inl rfl) (Or.inl rfl)
    (Or.inl rfl) (Or.inl rfl) (Or.inl rfl)

/-- Arguments for `Image.search` supplying the four integer fields with the
given values. -/
def intArgsImage (w h pg pp : Int) : ImageSearchArgs :=
  ⟨none, none, none, none, none, none, some (PyVal.int w), some (PyVal.int h),
   none, none, none, none, some (PyVal.int pg), some (PyVal.int pp),
   none, none⟩

/-- Arguments for `Video.search` supplying the four integer fields with the
given values. -/
def intArgsVideo (w h pg pp : Int) : VideoSearchArgs :=
  ⟨none, none, none, none, none, some (PyVal.int w), some (PyVal.int h),
   none, none, none, some (PyVal.int pg), some (PyVal.int pp), none, none⟩

/-- Claim C7: any supplied integers for min_width, min_height, page and
per_page — including values outside the remote API's documented ranges —
appear in the payload exactly as supplied: no clamping, no range check, no
local rejection. -/
theorem C7_integer_passthrough (self : Pixabay) (w h pg pp : Int) :
    (Image.payload self (intArgsImage w h pg pp)).lookup "min_width"
      = some (PyVal.int w) ∧
    (Image.payload self (intArgsImage w h pg pp)).lookup "min_height"
      = some (PyVal.int h) ∧
    (Image.payload self (intArgsImage w h pg pp)).lookup "page"
      = some (PyVal.int pg) ∧
    (Image.payload self (intArgsImage w h pg pp)).lookup "per_page"
      = some (PyVal.int pp) ∧
    (Video.payload self (intArgsVideo w h pg pp)).lookup "min_width"
      = some (PyVal.int w) ∧
    (Video.payload self (intArgsVideo w h pg pp)).lookup "min_height"
      = some (PyVal.int h) ∧
    (Video.payload self (intArgsVideo w h pg pp)).lookup "page"
      = some (PyVal.int pg) ∧
    (Video.payload self (intArgsVideo w h pg pp)).lookup "per_page"
      = some (PyVal.int pp) := by
  exact ⟨rfl, rfl, rfl, rfl, rfl, rfl, rfl, rfl⟩

/-- Claim C8: every `search` call issues exactly one GET request, whether
the response is a success or a failure — never a retry, and no other
request beyond that single one. -/
theorem C8_single_request {α : Type} (parseJson : String → α)
    (http : Request → Response) (self : Pixabay) (a : ImageSearchArgs)
    (b : VideoSearchArgs) :
    (Image.search parseJson http self a).requests = [Image.request self a] ∧
    (Video.search parseJson http self b).requests = [Video.request self b] := by
  constructor <;>
    · simp only [Image.search, Video.search]
      split <;> rfl

/-- Claim C9: the client configuration is never mutated: after any `search`
call, successful or failed, the stored API key and base URL are unchanged
from construction. -/
theorem C9_no_mutation {α : Type} (parseJson : String → α)
    (http : Request → Response) (k : String) (a : ImageSearchArgs)
    (b : VideoSearchArgs) :
    (Image.search parseJson http (Image.init k) a).finalSelf = Image.init k ∧
    (Video.search parseJson http (Video.init k) b).finalSelf = Video.init k := by
  constructor <;>
    · simp only [Image.search, Video.search]
      split <;> rfl

/-- Claim C10: construction succeeds for every key string (the constructor
is a total function with no checks), stores the key verbatim, and sets the
base URL to the constant "https://pixabay.com/api/" for both resource
types, independently of the key. -/
theorem C10_constructor_total (k : String) :
    (Image.init k).api_key = k ∧
    (Image.init k).root_url = "https://pixabay.com/api/" ∧
    (Video.init k).api_key = k ∧
    (Video.init k).root_url = "https://pixabay.com/api/" ∧
    Image.init k = Video.init k ∧
    (Image.init "").api_key = "" := by
  exact ⟨rfl, rfl, rfl, rfl, rfl, rfl⟩
